import Mathlib

/-!
Verification of the real-time message streaming and synchronization core of the
Chatbot_UI widget: the WebSocket cache updaters (`cacheUpdaters`), the protocol
decoder (`messageHandlers.handleWebSocketMessage`), the connection manager
(`WebSocketConnection`), the chat hook wiring (`useWebSocketChat`), the history
query (`useQueries.useMessagesQuery`) and the optimistic send path of
`ChatScreen.handleSendMessage`.

JavaScript conventions are embedded as follows: `Date` timestamps are `Nat`;
JS string truthiness (`""` and `null`/`undefined` are falsy) is the `truthy`
predicate on `Option String`; `Array.prototype.findIndex` + in-place
`splice`/assignment are the structural helpers `removeFirst`, `replaceFirst`
and `modifyFirst`; `String.prototype.startsWith` is `strStarts` (character-list
level, so that proofs can evaluate it); the stable `Array.prototype.sort` by
timestamp is `List.insertionSort` by timestamp (a stable sort).
-/

namespace ChatWidget

/-- Message record (src/features/chat/types.ts) together with the optional
`metadata.type` tag that cacheUpdaters attach to out-of-band messages
(`"idle_warning"` / `"session_end"`), modelled as `metadataType`. -/
structure Message where
  id : String
  chatId : String
  content : String
  role : String
  timestamp : Nat
  isRead : Bool
  metadataType : Option String
deriving DecidableEq, Repr

/-- The value cached under `chatKeys.messages(sessionId)`:
`{ messages, hasMore, total }`. -/
structure MessagesData where
  messages : List Message
  hasMore : Bool
  total : Nat
deriving DecidableEq, Repr

/-- Conversation derived state cached under `[...chatKeys.messages(id), "state"]`. -/
structure ConvState where
  needsInfo : Option String
  isComplete : Bool
  suggestions : List String
deriving DecidableEq, Repr

/-- One session row of the conversation-list cache (the fields the updaters
touch: `id`, `is_active`, `last_message`, `last_message_at`). -/
structure SessionEntry where
  id : String
  is_active : Bool
  last_message : String
  last_message_at : Nat
deriving DecidableEq, Repr

/-- JS `s.startsWith(pre)`, evaluated on the character lists so that concrete
instances reduce in the kernel. -/
def strStarts (s pre : String) : Bool := List.isPrefixOf pre.data s.data

/-- `msg.id === "streaming" || msg.id.startsWith("streaming_")` — the test the
cache updaters use to find the in-progress streaming placeholder. -/
def isStreamingId (s : String) : Bool := s == "streaming" || strStarts s "streaming_"

/-- `msg.id === "typing-indicator"` — the optimistic typing placeholder. -/
def isTypingId (s : String) : Bool := s == "typing-indicator"

/-- `msg.id.startsWith("temp_user_")` — a provisional optimistic user message. -/
def isTempUserId (s : String) : Bool := strStarts s "temp_user_"

/-- `findIndex` + `splice(i, 1)`: drop the first element satisfying `p`. -/
def removeFirst (p : Message → Bool) : List Message → List Message
  | [] => []
  | m :: rest => if p m then rest else m :: removeFirst p rest

/-- `findIndex` + `messages[i] = a`: overwrite the first element satisfying `p`. -/
def replaceFirst (p : Message → Bool) (a : Message) : List Message → List Message
  | [] => []
  | m :: rest => if p m then a :: rest else m :: replaceFirst p a rest

/-- `findIndex` + `messages[i] = { ...messages[i], field }`: update the first
element satisfying `p` in place. -/
def modifyFirst (p : Message → Bool) (f : Message → Message) : List Message → List Message
  | [] => []
  | m :: rest => if p m then f m :: rest else m :: modifyFirst p f rest

/-! ### cacheUpdaters.updateStreamingMessage -/

/-- The streaming placeholder object built by `updateStreamingMessage`
(`id: messageId ? streaming_${messageId} : "streaming"`). -/
def streamingPlaceholder (sessionId messageId content : String) (now : Nat) : Message :=
  { id := if messageId == "" then "streaming" else "streaming_" ++ messageId
    chatId := sessionId
    content := content
    role := "assistant"
    timestamp := now
    isRead := false
    metadataType := none }

/-- Second half of `updateStreamingMessage`: replace the existing streaming
entry in place, else append one (`find existing, else append`). -/
def streamingUpsert (sm : Message) (ms : List Message) : List Message :=
  if ms.any (fun m => isStreamingId m.id) then
    replaceFirst (fun m => isStreamingId m.id) sm ms
  else ms ++ [sm]

/-- Core of `updateStreamingMessage` (cacheUpdaters): remove the typing
indicator, then replace the existing streaming entry in place, else append one.
`now` is `Date.now()` at the time of the update. -/
def updateStreamingMessage (sessionId messageId content : String) (now : Nat)
    (ms : List Message) : List Message :=
  streamingUpsert (streamingPlaceholder sessionId messageId content now)
    (removeFirst (fun m => isTypingId m.id) ms)

/-- `updateStreamingMessage` at the cache level; `if (!old) return old`. -/
def updateStreamingMessageData (sessionId messageId content : String) (now : Nat) :
    Option MessagesData → Option MessagesData
  | none => none
  | some d =>
      some { d with messages := updateStreamingMessage sessionId messageId content now d.messages }

/-! ### cacheUpdaters.updateCompleteMessage -/

/-- The defensive content fallback at the top of `updateCompleteMessage`: if the
terminal `content` is empty, source it from the streaming entry currently in
the cache (`streamingMsg?.content || content`). -/
def completeFinalContent (content : String) (old : Option MessagesData) : String :=
  if content == "" then
    match old with
    | none => content
    | some d =>
        match d.messages.find? (fun m => isStreamingId m.id) with
        | some m => if m.content == "" then content else m.content
        | none => content
  else content

/-- The complete assistant message appended by `updateCompleteMessage` when no
message with the response id exists yet. -/
def completeAssistantMsg (sessionId responseId finalContent : String) (now : Nat) : Message :=
  { id := responseId
    chatId := sessionId
    content := finalContent
    role := "assistant"
    timestamp := now
    isRead := false
    metadataType := none }

/-- The `Update user message ID if needed` step of `updateCompleteMessage`:
relabel the first `temp_user_` message to the server `messageId` when one was
supplied. -/
def completeRelabel (messageId : String) (ms : List Message) : List Message :=
  if messageId == "" then ms
  else modifyFirst (fun m => isTempUserId m.id) (fun m => { m with id := messageId }) ms

/-- The duplicate check of `updateCompleteMessage`: update the assistant
message with id `responseId` in place if it already exists, else append it. -/
def completeDedup (sessionId responseId finalContent : String) (now : Nat)
    (ms : List Message) : List Message :=
  if ms.any (fun m => m.id == responseId) then
    modifyFirst (fun m => m.id == responseId) (fun m => { m with content := finalContent }) ms
  else ms ++ [completeAssistantMsg sessionId responseId finalContent now]

/-- Core of `updateCompleteMessage`: remove the streaming entry and the typing
indicator, relabel the first `temp_user_` message to the server `messageId`
(when one was supplied), then update the assistant message with id
`responseId` in place if it already exists, otherwise append it. -/
def updateCompleteMessageList (sessionId messageId responseId finalContent : String)
    (now : Nat) (ms : List Message) : List Message :=
  completeDedup sessionId responseId finalContent now
    (completeRelabel messageId
      (removeFirst (fun m => isTypingId m.id)
        (removeFirst (fun m => isStreamingId m.id) ms)))

/-- `updateCompleteMessage` restricted to the message cache: computes the
content fallback from the cache read that precedes `setQueryData`, then runs
the list updater (`if (!old) return old`; `total` becomes `messages.length`).
The conversation-state, suggestions and session-list writes are modelled
separately in `applyEvent`. -/
def updateCompleteMessageData (sessionId messageId responseId content : String)
    (now : Nat) (old : Option MessagesData) : Option MessagesData :=
  match old with
  | none => none
  | some d =>
      some { d with
              messages := updateCompleteMessageList sessionId messageId responseId
                (completeFinalContent content old) now d.messages
              total := (updateCompleteMessageList sessionId messageId responseId
                (completeFinalContent content old) now d.messages).length }

/-- The display truncation used for the conversation-list preview:
`content.length > 100 ? content.substring(0, 100) + "..." : content`. -/
def truncateForList (s : String) : String :=
  if s.length > 100 then String.mk (s.data.take 100) ++ "..." else s

/-- `updateSessionInList` (cacheUpdaters): set `last_message`/`last_message_at`
on the matching session row of the conversation-list cache. -/
def updateSessionInList (sessionId lastMessage : String) (t : Nat)
    (ss : List SessionEntry) : List SessionEntry :=
  ss.map fun se =>
    if se.id == sessionId then { se with last_message := lastMessage, last_message_at := t }
    else se

/-! ### cacheUpdaters.addIdleWarningMessage / addSessionEndMessage -/

/-- The duplicate test of `addIdleWarningMessage`:
`msg.id === responseId || (msg.id.startsWith("idle_warning_") && msg.content === message)`. -/
def idleWarningMatches (responseId message : String) (m : Message) : Bool :=
  m.id == responseId || (strStarts m.id "idle_warning_" && m.content == message)

/-- The idle-warning message object built by `addIdleWarningMessage`. -/
def idleWarningMsg (sessionId message responseId : String) (now : Nat) : Message :=
  { id := if responseId == "" then "idle_warning_" ++ toString now else responseId
    chatId := sessionId
    content := message
    role := "assistant"
    timestamp := now
    isRead := false
    metadataType := some "idle_warning" }

/-- Core of `addIdleWarningMessage`: update the first duplicate in place,
else append the tagged message. -/
def addIdleWarningList (sessionId message responseId : String) (now : Nat)
    (ms : List Message) : List Message :=
  if ms.any (idleWarningMatches responseId message) then
    replaceFirst (idleWarningMatches responseId message)
      (idleWarningMsg sessionId message responseId now) ms
  else ms ++ [idleWarningMsg sessionId message responseId now]

/-- `addIdleWarningMessage` at the cache level (`!old` seeds a fresh record). -/
def addIdleWarningData (sessionId message responseId : String) (now : Nat) :
    Option MessagesData → MessagesData
  | none => { messages := [idleWarningMsg sessionId message responseId now]
              hasMore := false
              total := 1 }
  | some d =>
      { d with
          messages := addIdleWarningList sessionId message responseId now d.messages
          total := (addIdleWarningList sessionId message responseId now d.messages).length }

/-- The duplicate test of `addSessionEndMessage`:
`msg.id === responseId || (msg.id.startsWith("session_end_") && msg.content === message)`. -/
def sessionEndMatches (responseId message : String) (m : Message) : Bool :=
  m.id == responseId || (strStarts m.id "session_end_" && m.content == message)

/-- The session-end message object built by `addSessionEndMessage`. -/
def sessionEndMsg (sessionId message responseId : String) (now : Nat) : Message :=
  { id := if responseId == "" then "session_end_" ++ toString now else responseId
    chatId := sessionId
    content := message
    role := "assistant"
    timestamp := now
    isRead := false
    metadataType := some "session_end" }

/-- Core of `addSessionEndMessage`: update the first duplicate in place,
else append the tagged message. -/
def addSessionEndList (sessionId message responseId : String) (now : Nat)
    (ms : List Message) : List Message :=
  if ms.any (sessionEndMatches responseId message) then
    replaceFirst (sessionEndMatches responseId message)
      (sessionEndMsg sessionId message responseId now) ms
  else ms ++ [sessionEndMsg sessionId message responseId now]

/-- `addSessionEndMessage` at the message-cache level. -/
def addSessionEndData (sessionId message responseId : String) (now : Nat) :
    Option MessagesData → MessagesData
  | none => { messages := [sessionEndMsg sessionId message responseId now]
              hasMore := false
              total := 1 }
  | some d =>
      { d with
          messages := addSessionEndList sessionId message responseId now d.messages
          total := (addSessionEndList sessionId message responseId now d.messages).length }

/-- The conversation-list write of `addSessionEndMessage`: every row whose id
is the ended session becomes `is_active: false` with an updated preview (both
the targeted-visitor path and the fallback path perform this per-row map). -/
def sessionEndSessionList (sessionId message : String) (t : Nat)
    (ss : List SessionEntry) : List SessionEntry :=
  ss.map fun se =>
    if se.id == sessionId then
      { se with is_active := false, last_message := message, last_message_at := t }
    else se

/-! ### messageHandlers.handleWebSocketMessage (Protocol Decoder) -/

/-- Inbound frame (`WebSocketMessage` in messageHandlers.ts). Optional fields
are `Option`; a `none` models an absent field and `some ""` an empty string
(both falsy in the JS guards). -/
structure WSMessage where
  type : String
  chunk : Option String := none
  message_id : Option String := none
  response_id : Option String := none
  complete : Option Bool := none
  needs_info : Option String := none
  suggestions : Option (List String) := none
  error : Option String := none
  message : Option String := none
  session_id : Option String := none
deriving DecidableEq, Repr

/-- The streaming accumulator (`StreamingState` in messageHandlers.ts):
`{ content, messageId }` with `messageId: string | null`. -/
structure StreamingState where
  content : String
  messageId : Option String
deriving DecidableEq, Repr

/-- JS truthiness of a `string | null | undefined` value. -/
def truthy : Option String → Bool
  | none => false
  | some s => !(s == "")

/-- JS `a || b` on nullable strings (first truthy operand, else `null`). -/
def firstTruthy (a b : Option String) : Option String :=
  if truthy a then a else if truthy b then b else none

/-- The callbacks that `handleWebSocketMessage` may invoke, reified as emitted
events so that "no callback is invoked" is "the event list is empty". -/
inductive WsEvent where
  | chunkEv (content : String) (messageId : String)
  | completeEv (messageId responseId content : String) (isComplete : Bool)
      (needsInfo : Option String) (suggestions : List String)
  | idleEv (message sessionId responseId : String)
  | endEv (message sessionId responseId : String)
  | errorEv (msg : String)
deriving DecidableEq, Repr

/-- `handleWebSocketMessage` (messageHandlers.ts): fold one inbound frame into
the accumulator, returning the new accumulator and the invoked callbacks. -/
def handleWebSocketMessage (data : WSMessage) (st : StreamingState) :
    StreamingState × List WsEvent :=
  if data.type == "chunk" then
    if truthy data.chunk then
      let newContent := st.content ++ data.chunk.getD ""
      let mid := firstTruthy data.message_id st.messageId
      (⟨newContent, mid⟩, [WsEvent.chunkEv newContent (mid.getD "")])
    else (st, [])
  else if data.type == "complete" then
    if truthy data.message_id && truthy data.response_id then
      (⟨"", none⟩,
        [WsEvent.completeEv (data.message_id.getD "") (data.response_id.getD "") st.content
          (data.complete.getD false)
          (if truthy data.needs_info then data.needs_info else none)
          (data.suggestions.getD [])])
    else (⟨"", none⟩, [])
  else if data.type == "idle_warning" then
    if truthy data.message && truthy data.session_id && truthy data.response_id then
      (st, [WsEvent.idleEv (data.message.getD "") (data.session_id.getD "")
              (data.response_id.getD "")])
    else (st, [])
  else if data.type == "session_end" then
    if truthy data.message && truthy data.session_id && truthy data.response_id then
      (st, [WsEvent.endEv (data.message.getD "") (data.session_id.getD "")
              (data.response_id.getD "")])
    else (st, [])
  else if data.type == "error" then
    (⟨"", none⟩,
      [WsEvent.errorEv (if truthy data.error then data.error.getD "" else "WebSocket error")])
  else (st, [])

/-! ### useWebSocketChat: per-conversation hook state and frame dispatch -/

/-- The state a `useWebSocketChat` instance owns for its conversation: the
message cache entry, the derived conversation state, the conversation-list
cache rows, whether its connection is open, and the streaming accumulator. -/
structure ChatState where
  cache : Option MessagesData
  convState : Option ConvState
  sessions : List SessionEntry
  connected : Bool
  streaming : StreamingState
deriving DecidableEq, Repr

/-- Dispatch of one decoded callback inside `useWebSocketChat`'s `onMessage`:
chunk → `updateStreamingMessage`; complete → `updateCompleteMessage` (message
cache, conversation state, conversation-list preview); idle warning /
session end → guarded by `warningSessionId === sessionId`, the session-end
branch also disconnecting; error → forwarded to the error observer (returned
as a surfaced-error string), touching no cache. -/
def applyEvent (hookSessionId : String) (now : Nat) (s : ChatState) :
    WsEvent → ChatState × List String
  | WsEvent.chunkEv content mid =>
      ({ s with cache := updateStreamingMessageData hookSessionId mid content now s.cache }, [])
  | WsEvent.completeEv mid rid content isC ni sug =>
      let fc := completeFinalContent content s.cache
      ({ s with
          cache := updateCompleteMessageData hookSessionId mid rid content now s.cache
          convState := some { needsInfo := ni, isComplete := isC, suggestions := sug }
          sessions := updateSessionInList hookSessionId (truncateForList fc) now s.sessions }, [])
  | WsEvent.idleEv message sid rid =>
      if sid == hookSessionId then
        ({ s with cache := some (addIdleWarningData hookSessionId message rid now s.cache) }, [])
      else (s, [])
  | WsEvent.endEv message sid rid =>
      if sid == hookSessionId then
        ({ s with
            cache := some (addSessionEndData hookSessionId message rid now s.cache)
            convState := some { needsInfo := none, isComplete := true, suggestions := [] }
            sessions := sessionEndSessionList hookSessionId message now s.sessions
            connected := false }, [])
      else (s, [])
  | WsEvent.errorEv e => (s, [e])

/-- Processing of one inbound frame by a `useWebSocketChat` instance: decode it
against the accumulator, then apply every invoked callback; returns the new
state and the errors surfaced to the error observer. -/
def processFrame (hookSessionId : String) (now : Nat) (data : WSMessage) (s : ChatState) :
    ChatState × List String :=
  let r := handleWebSocketMessage data s.streaming
  r.2.foldl
    (fun (acc : ChatState × List String) ev =>
      let r2 := applyEvent hookSessionId now acc.1 ev
      (r2.1, acc.2 ++ r2.2))
    ({ s with streaming := r.1 }, [])

/-- `useWebSocketChat.sendMessage`: returns `false` when the connection is not
open (it then only triggers a background reconnect attempt) or when no visitor
id is available; otherwise the transport-level send result is returned. -/
def sendMessageWS (visitorId : String) (s : ChatState) (transportOk : Bool) : Bool :=
  if !s.connected then false
  else if visitorId == "" then false
  else transportOk

/-! ### WebSocketConnection (Connection Manager) reconnection logic -/

/-- The reconnection configuration of `WebSocketConnection`
(`maxReconnectAttempts ?? 5`, `reconnectDelay ?? 1000`). -/
structure ConnConfig where
  maxReconnectAttempts : Nat
  reconnectDelay : Nat
deriving DecidableEq, Repr

/-- The persistent fields of `WebSocketConnection` that drive reconnection. -/
structure ConnState where
  reconnectAttempts : Nat
  isManuallyClosed : Bool
deriving DecidableEq, Repr

/-- Externally visible effects of the `onclose` handler. -/
inductive ConnAction where
  | scheduleReconnect (delay : Nat)
  | terminalError
deriving DecidableEq, Repr

/-- The `onclose` handler of `WebSocketConnection.connect` composed with
`attemptReconnect`: when the close was not manual, attempts remain and the
close code is not 1000, increment the attempt counter and schedule a reconnect
after `reconnectDelay * reconnectAttempts`; otherwise, if attempts are
exhausted, surface the terminal connectivity error. -/
def onCloseEvent (cfg : ConnConfig) (code : Nat) (s : ConnState) :
    ConnState × List ConnAction :=
  if !s.isManuallyClosed && decide (s.reconnectAttempts < cfg.maxReconnectAttempts)
      && !(code == 1000) then
    let a := s.reconnectAttempts + 1
    ({ s with reconnectAttempts := a }, [ConnAction.scheduleReconnect (cfg.reconnectDelay * a)])
  else if cfg.maxReconnectAttempts ≤ s.reconnectAttempts then
    (s, [ConnAction.terminalError])
  else (s, [])

/-- Whether an action is a scheduled reconnection. -/
def isReconnectAction : ConnAction → Bool
  | ConnAction.scheduleReconnect _ => true
  | ConnAction.terminalError => false

/-- A run in which every connection attempt fails with an abnormal close
(code 1006 before open): each scheduled reconnect leads to another failing
attempt and hence another close event; the run stops when no reconnect is
scheduled. `fuel` bounds the number of close events considered. -/
def failingRun (cfg : ConnConfig) : Nat → ConnState → List ConnAction
  | 0, _ => []
  | Nat.succ fuel, s =>
      let r := onCloseEvent cfg 1006 s
      if r.2.any isReconnectAction then r.2 ++ failingRun cfg fuel r.1
      else r.2

/-! ### useQueries.useMessagesQuery (history fetch) -/

/-- A message as returned by the history API (`getChatHistory`). -/
structure ApiMessage where
  id : String
  message : String
  role : String
  timestamp : Nat
  metadataType : Option String
deriving DecidableEq, Repr

/-- `convertApiMessage` (useQueries.ts): map an API message into the app
message shape (`isRead: role === "user"`, metadata preserved). -/
def convertApiMessage (sessionId : String) (a : ApiMessage) : Message :=
  { id := a.id
    chatId := sessionId
    content := a.message
    role := a.role
    timestamp := a.timestamp
    isRead := a.role == "user"
    metadataType := a.metadataType }

/-- The timestamp order used by the history sort
(`(a, b) => a.timestamp.getTime() - b.timestamp.getTime()`). -/
def tsLe (a b : Message) : Prop := a.timestamp ≤ b.timestamp

instance : DecidableRel tsLe := fun a b => Nat.decLe a.timestamp b.timestamp

instance : IsTotal Message tsLe := ⟨fun a b => Nat.le_total a.timestamp b.timestamp⟩

instance : IsTrans Message tsLe := ⟨fun _ _ _ => Nat.le_trans⟩

/-- The messages computed by `useMessagesQuery`'s query function: the fetched
page, converted and stably sorted by timestamp ascending (JS `Array.sort` is
stable; `insertionSort` is its stable counterpart here). -/
def historyQueryMessages (sessionId : String) (api : List ApiMessage) : List Message :=
  (api.map (convertApiMessage sessionId)).insertionSort tsLe

/-- The full value `useMessagesQuery`'s query function produces for the cache:
it is computed from the fetched page alone — the previously cached value
(`_old`), which may hold optimistic/streaming entries, is not consulted, so
the refetch replaces the cache entry wholesale. -/
def historyRefetch (sessionId : String) (api : List ApiMessage) (hasMore : Bool)
    (total : Nat) (_old : Option MessagesData) : MessagesData :=
  { messages := historyQueryMessages sessionId api
    hasMore := hasMore
    total := total }

/-! ### ChatScreen.handleSendMessage: optimistic insert and rollback -/

/-- The optimistic user message built by `handleSendMessage` (`content` is the
already-trimmed text, `optimisticId` is the fresh `temp_user_${Date.now()}`). -/
def optimisticUserMsg (sessionId content optimisticId : String) (now : Nat) : Message :=
  { id := optimisticId
    chatId := sessionId
    content := content
    role := "user"
    timestamp := now
    isRead := true
    metadataType := none }

/-- The typing indicator inserted right after the optimistic user message. -/
def typingIndicatorMsg (sessionId : String) (now : Nat) : Message :=
  { id := "typing-indicator"
    chatId := sessionId
    content := ""
    role := "assistant"
    timestamp := now
    isRead := false
    metadataType := none }

/-- The optimistic insert of `handleSendMessage`: drop any existing typing
indicator or streaming entry, then append the user message and a fresh typing
indicator (`total` becomes `filteredMessages.length + 1` as in the source). -/
def optimisticInsert (sessionId content optimisticId : String) (now : Nat) :
    Option MessagesData → MessagesData
  | none =>
      { messages := [optimisticUserMsg sessionId content optimisticId now,
                     typingIndicatorMsg sessionId now]
        hasMore := false
        total := 1 }
  | some o =>
      { o with
          messages :=
            (o.messages.filter fun m =>
              !(m.id == "typing-indicator") && !(m.id == "streaming")
                && !(strStarts m.id "streaming_"))
              ++ [optimisticUserMsg sessionId content optimisticId now,
                  typingIndicatorMsg sessionId now]
          total :=
            (o.messages.filter fun m =>
              !(m.id == "typing-indicator") && !(m.id == "streaming")
                && !(strStarts m.id "streaming_")).length + 1 }

/-- The rollback `handleSendMessage` performs when the WebSocket send returns
`false`: remove the optimistic user message (by its local id), the streaming
entries and the typing indicator. -/
def sendRollback (optimisticId : String) : Option MessagesData → Option MessagesData
  | none => none
  | some o =>
      some { o with
              messages := o.messages.filter fun m =>
                !(m.id == optimisticId) && !(m.id == "streaming")
                  && !(m.id == "typing-indicator") && !(strStarts m.id "streaming_") }

/-! ### Counting helpers and generic lemmas about the in-place list operations -/

/-- Number of streaming placeholder entries in a message list. -/
def streamingCount (l : List Message) : Nat := l.countP (fun m => isStreamingId m.id)

/-- Number of typing-indicator entries in a message list. -/
def typingCount (l : List Message) : Nat := l.countP (fun m => isTypingId m.id)

/-- Number of provisional optimistic user messages in a message list. -/
def tempUserCount (l : List Message) : Nat := l.countP (fun m => isTempUserId m.id)

/-- Number of placeholder entries (streaming or typing) in a message list. -/
def placeholderCount (l : List Message) : Nat :=
  l.countP (fun m => isStreamingId m.id || isTypingId m.id)

theorem removeFirst_sublist (p : Message → Bool) :
    ∀ l : List Message, (removeFirst p l).Sublist l
  | [] => List.Sublist.refl _
  | m :: rest => by
      cases hp : p m with
      | true => simp only [removeFirst, hp, if_pos rfl]; exact List.sublist_cons_self m rest
      | false =>
          simpa [removeFirst, hp] using List.Sublist.cons₂ m (removeFirst_sublist p rest)

theorem countP_zero_iff {p : Message → Bool} {l : List Message} :
    l.countP p = 0 ↔ ∀ m ∈ l, p m = false := by
  rw [List.countP_eq_zero]
  constructor
  · intro h m hm
    exact Bool.not_eq_true _ |>.mp (h m hm)
  · intro h m hm
    rw [h m hm]
    exact Bool.false_ne_true

theorem removeFirst_of_none {p : Message → Bool} :
    ∀ {l : List Message}, (∀ m ∈ l, p m = false) → removeFirst p l = l
  | [], _ => rfl
  | m :: rest, h => by
      have hp := h m (List.mem_cons_self m rest)
      have hrest : ∀ x ∈ rest, p x = false := fun x hx => h x (List.mem_cons_of_mem m hx)
      simp [removeFirst, hp, removeFirst_of_none hrest]

theorem removeFirst_eq_self {p : Message → Bool} {l : List Message}
    (h : l.countP p = 0) : removeFirst p l = l :=
  removeFirst_of_none (countP_zero_iff.mp h)

theorem countP_removeFirst_self (p : Message → Bool) :
    ∀ l : List Message, (removeFirst p l).countP p = l.countP p - 1
  | [] => rfl
  | m :: rest => by
      cases hp : p m with
      | true => simp [removeFirst, hp, List.countP_cons]
      | false =>
          simp [removeFirst, hp, List.countP_cons, countP_removeFirst_self p rest]

theorem modifyFirst_of_none {p : Message → Bool} {f : Message → Message} :
    ∀ {l : List Message}, (∀ m ∈ l, p m = false) → modifyFirst p f l = l
  | [], _ => rfl
  | m :: rest, h => by
      have hp := h m (List.mem_cons_self m rest)
      have hrest : ∀ x ∈ rest, p x = false := fun x hx => h x (List.mem_cons_of_mem m hx)
      simp [modifyFirst, hp, modifyFirst_of_none hrest]

theorem modifyFirst_eq_self {p : Message → Bool} {f : Message → Message} {l : List Message}
    (h : l.countP p = 0) : modifyFirst p f l = l :=
  modifyFirst_of_none (countP_zero_iff.mp h)

theorem countP_modifyFirst_congr {p q : Message → Bool} {f : Message → Message}
    (hf : ∀ m, q (f m) = q m) :
    ∀ l : List Message, (modifyFirst p f l).countP q = l.countP q
  | [] => rfl
  | m :: rest => by
      cases hp : p m with
      | true => simp [modifyFirst, hp, List.countP_cons, hf m]
      | false => simp [modifyFirst, hp, List.countP_cons, countP_modifyFirst_congr hf rest]

theorem countP_modifyFirst_zero {p q : Message → Bool} {f : Message → Message}
    (hf : ∀ m, q (f m) = false) :
    ∀ {l : List Message}, (∀ m ∈ l, q m = false) → (modifyFirst p f l).countP q = 0
  | [], _ => rfl
  | m :: rest, h => by
      have hq := h m (List.mem_cons_self m rest)
      have hrest : ∀ x ∈ rest, q x = false := fun x hx => h x (List.mem_cons_of_mem m hx)
      cases hp : p m with
      | true =>
          simp [modifyFirst, hp, List.countP_cons, hf m, countP_zero_iff.mpr hrest]
      | false =>
          simp [modifyFirst, hp, List.countP_cons, hq, countP_modifyFirst_zero hf hrest]

theorem countP_modifyFirst_self_zero {p : Message → Bool} {f : Message → Message}
    (hf : ∀ m, p (f m) = false) :
    ∀ {l : List Message}, l.countP p ≤ 1 → (modifyFirst p f l).countP p = 0
  | [], _ => rfl
  | m :: rest, h => by
      rw [List.countP_cons] at h
      cases hp : p m with
      | true =>
          rw [hp, if_pos rfl] at h
          have h0 : rest.countP p = 0 := by omega
          simp [modifyFirst, hp, List.countP_cons, hf m, h0]
      | false =>
          rw [hp] at h
          simp only [Bool.false_eq_true, if_false, Nat.add_zero] at h
          simp [modifyFirst, hp, List.countP_cons, countP_modifyFirst_self_zero hf h]

theorem modifyFirst_append_left {p : Message → Bool} {f : Message → Message} :
    ∀ {l : List Message}, (∀ m ∈ l, p m = false) →
      ∀ l' : List Message, modifyFirst p f (l ++ l') = l ++ modifyFirst p f l'
  | [], _, _ => rfl
  | m :: rest, h, l' => by
      have hp := h m (List.mem_cons_self m rest)
      have hrest : ∀ x ∈ rest, p x = false := fun x hx => h x (List.mem_cons_of_mem m hx)
      simp [modifyFirst, hp, modifyFirst_append_left hrest l']

theorem replaceFirst_append_left {p : Message → Bool} {a : Message} :
    ∀ {l : List Message}, (∀ m ∈ l, p m = false) →
      ∀ l' : List Message, replaceFirst p a (l ++ l') = l ++ replaceFirst p a l'
  | [], _, _ => rfl
  | m :: rest, h, l' => by
      have hp := h m (List.mem_cons_self m rest)
      have hrest : ∀ x ∈ rest, p x = false := fun x hx => h x (List.mem_cons_of_mem m hx)
      simp [replaceFirst, hp, replaceFirst_append_left hrest l']

theorem modifyFirst_modifyFirst {p : Message → Bool} {f : Message → Message}
    (hp : ∀ m, p (f m) = p m) (hf : ∀ m, f (f m) = f m) :
    ∀ l : List Message, modifyFirst p f (modifyFirst p f l) = modifyFirst p f l
  | [] => rfl
  | m :: rest => by
      cases hpm : p m with
      | true => simp [modifyFirst, hpm, hp m, hf m]
      | false => simp [modifyFirst, hpm, modifyFirst_modifyFirst hp hf rest]

theorem modifyFirst_map_eq {p : Message → Bool} {f : Message → Message} {g : Message → Nat}
    (hf : ∀ m, g (f m) = g m) :
    ∀ l : List Message, (modifyFirst p f l).map g = l.map g
  | [] => rfl
  | m :: rest => by
      cases hp : p m with
      | true => simp [modifyFirst, hp, hf m]
      | false => simp [modifyFirst, hp, modifyFirst_map_eq hf rest]

theorem countP_replaceFirst_congr {p q : Message → Bool} {a : Message}
    (ha : ∀ m, p m = true → q a = q m) :
    ∀ l : List Message, (replaceFirst p a l).countP q = l.countP q
  | [] => rfl
  | m :: rest => by
      cases hp : p m with
      | true => simp [replaceFirst, hp, List.countP_cons, ha m hp]
      | false => simp [replaceFirst, hp, List.countP_cons, countP_replaceFirst_congr ha rest]

/-! ### Facts about the placeholder id predicates -/

theorem isPrefixOf_append_self : ∀ l l' : List Char, List.isPrefixOf l (l ++ l') = true
  | [], _ => by simp [List.isPrefixOf]
  | a :: l, l' => by simp [List.isPrefixOf, isPrefixOf_append_self l l']

theorem strStarts_append (pre x : String) : strStarts (pre ++ x) pre = true := by
  simp only [strStarts, String.data_append]
  exact isPrefixOf_append_self pre.data x.data

theorem typingId_eq {s : String} (h : isTypingId s = true) : s = "typing-indicator" := by
  simpa [isTypingId] using h

theorem typing_not_streaming {s : String} (h : isTypingId s = true) : isStreamingId s = false := by
  have hs : s = "typing-indicator" := typingId_eq h
  subst hs
  decide

theorem streaming_not_typing {s : String} (h : isStreamingId s = true) : isTypingId s = false := by
  cases ht : isTypingId s with
  | false => rfl
  | true =>
      have hs : s = "typing-indicator" := typingId_eq ht
      subst hs
      exact absurd h (by decide)

/-- The id given to the streaming placeholder
(`streaming` or `streaming_${messageId}`) always satisfies `isStreamingId`. -/
theorem streamingPlaceholder_isStreaming (sessionId messageId content : String) (now : Nat) :
    isStreamingId (streamingPlaceholder sessionId messageId content now).id = true := by
  cases h : messageId == "" with
  | true => simp [streamingPlaceholder, isStreamingId, h]
  | false => simp [streamingPlaceholder, isStreamingId, h, strStarts_append]

theorem placeholderCount_eq : ∀ l : List Message,
    placeholderCount l = streamingCount l + typingCount l
  | [] => rfl
  | m :: rest => by
      have ih := placeholderCount_eq rest
      simp only [placeholderCount, streamingCount, typingCount] at ih
      cases hs : isStreamingId m.id with
      | true =>
          have ht := streaming_not_typing hs
          simp [placeholderCount, streamingCount, typingCount, List.countP_cons, hs, ht, ih]
          omega
      | false =>
          cases ht : isTypingId m.id with
          | true =>
              simp [placeholderCount, streamingCount, typingCount, List.countP_cons,
                hs, ht, ih]
              omega
          | false =>
              simp [placeholderCount, streamingCount, typingCount, List.countP_cons,
                hs, ht, ih]

/-! ### C2: the delta merge keeps exactly one placeholder -/

/-- A sequence of delta merges for one conversation: each element of `args` is
the `(messageId, content, now)` of one `updateStreamingMessage` call. -/
def applyDeltas (sessionId : String) (args : List (String × String × Nat))
    (l : List Message) : List Message :=
  args.foldl (fun acc a => updateStreamingMessage sessionId a.1 a.2.1 a.2.2 acc) l

theorem applyDeltas_cons (sessionId : String) (a : String × String × Nat)
    (as : List (String × String × Nat)) (l : List Message) :
    applyDeltas sessionId (a :: as) l
      = applyDeltas sessionId as (updateStreamingMessage sessionId a.1 a.2.1 a.2.2 l) := rfl

/-- The replace-or-append step keeps exactly one streaming entry and no typing
indicator when the incoming message is a streaming placeholder. -/
theorem streamingUpsert_counts {sm : Message} (hsmStream : isStreamingId sm.id = true)
    {ms : List Message} (hstr_le : ms.countP (fun m => isStreamingId m.id) ≤ 1)
    (hty0 : ms.countP (fun m => isTypingId m.id) = 0) :
    streamingCount (streamingUpsert sm ms) = 1 ∧ typingCount (streamingUpsert sm ms) = 0 := by
  have hsmTyping : isTypingId sm.id = false := streaming_not_typing hsmStream
  cases hany : ms.any (fun m => isStreamingId m.id) with
  | true =>
      have hpos : 0 < ms.countP (fun m => isStreamingId m.id) := by
        rw [List.countP_pos_iff]
        exact List.any_eq_true.mp hany
      have hstr1 : ms.countP (fun m => isStreamingId m.id) = 1 := by omega
      have hbr : streamingUpsert sm ms
          = replaceFirst (fun m => isStreamingId m.id) sm ms := by
        rw [streamingUpsert, if_pos hany]
      constructor
      · have hcong := countP_replaceFirst_congr
          (p := fun m => isStreamingId m.id) (q := fun m => isStreamingId m.id) (a := sm)
          (fun m hm => by
            show isStreamingId sm.id = isStreamingId m.id
            have hm' : isStreamingId m.id = true := hm
            rw [hsmStream, hm']) ms
        rw [hbr]
        exact hcong.trans hstr1
      · have hcong := countP_replaceFirst_congr
          (p := fun m => isStreamingId m.id) (q := fun m => isTypingId m.id) (a := sm)
          (fun m hm => by
            show isTypingId sm.id = isTypingId m.id
            have hm' : isStreamingId m.id = true := hm
            rw [hsmTyping, streaming_not_typing hm']) ms
        rw [hbr]
        exact hcong.trans hty0
  | false =>
      have hstr0 : ms.countP (fun m => isStreamingId m.id) = 0 := by
        rw [countP_zero_iff]
        intro m hm
        have := List.any_eq_false.mp hany m hm
        simpa using this
      have hbr : streamingUpsert sm ms = ms ++ [sm] := by
        rw [streamingUpsert, hany]
        simp
      rw [hbr]
      constructor
      · show (ms ++ [sm]).countP (fun m => isStreamingId m.id) = 1
        rw [List.countP_append, hstr0, List.countP_cons, List.countP_nil, hsmStream]
        simp
      · show (ms ++ [sm]).countP (fun m => isTypingId m.id) = 0
        rw [List.countP_append, hty0, List.countP_cons, List.countP_nil, hsmTyping]
        simp

/-- One delta merge turns a list holding at most one placeholder into a list
holding exactly one streaming entry and no typing indicator. -/
theorem updateStreamingMessage_counts (sessionId messageId content : String) (now : Nat)
    {l : List Message} (h : placeholderCount l ≤ 1) :
    streamingCount (updateStreamingMessage sessionId messageId content now l) = 1
      ∧ typingCount (updateStreamingMessage sessionId messageId content now l) = 0 := by
  have hsum := placeholderCount_eq l
  have hs1 : streamingCount l ≤ 1 := by omega
  have ht1 : typingCount l ≤ 1 := by omega
  have hty0 : (removeFirst (fun m => isTypingId m.id) l).countP (fun m => isTypingId m.id)
      = 0 := by
    have hrm := countP_removeFirst_self (fun m => isTypingId m.id) l
    have : typingCount l - 1 = 0 := by omega
    rw [hrm]
    exact this
  have hstr_le : (removeFirst (fun m => isTypingId m.id) l).countP
      (fun m => isStreamingId m.id) ≤ 1 :=
    le_trans (List.Sublist.countP_le _ (removeFirst_sublist _ l)) hs1
  exact streamingUpsert_counts
    (streamingPlaceholder_isStreaming sessionId messageId content now) hstr_le hty0

theorem applyDeltas_steady (sessionId : String) :
    ∀ (args : List (String × String × Nat)) (l : List Message),
      streamingCount l = 1 → typingCount l = 0 →
      streamingCount (applyDeltas sessionId args l) = 1
        ∧ typingCount (applyDeltas sessionId args l) = 0
  | [], l, hs, ht => ⟨hs, ht⟩
  | a :: args, l, hs, ht => by
      have hstep := updateStreamingMessage_counts sessionId a.1 a.2.1 a.2.2
        (l := l) (by rw [placeholderCount_eq]; omega)
      exact applyDeltas_steady sessionId args _ hstep.1 hstep.2

/-- C2: for a conversation whose message list satisfies the per-conversation
invariant of at most one placeholder entry, any nonempty sequence of delta
merges (`updateStreamingMessage` calls) without an intervening terminal merge
leaves exactly one streaming/placeholder entry: one streaming entry, no typing
indicator (the indicator is removed when streaming starts), because the delta
merge replaces the existing streaming entry in place and appends one only when
none exists. -/
theorem deltaMerge_single_placeholder (sessionId : String)
    (args : List (String × String × Nat)) (l : List Message)
    (h : placeholderCount l ≤ 1) (hne : args ≠ []) :
    placeholderCount (applyDeltas sessionId args l) = 1
      ∧ streamingCount (applyDeltas sessionId args l) = 1
      ∧ typingCount (applyDeltas sessionId args l) = 0 := by
  cases args with
  | nil => exact absurd rfl hne
  | cons a as =>
      have hstep := updateStreamingMessage_counts sessionId a.1 a.2.1 a.2.2 (l := l) h
      have hrest := applyDeltas_steady sessionId as _ hstep.1 hstep.2
      rw [applyDeltas_cons]
      exact ⟨by rw [placeholderCount_eq, hrest.1, hrest.2], hrest.1, hrest.2⟩

/-- Witness for C2 at a concrete input: starting from a list holding only the
typing indicator, two delta frames leave exactly one streaming entry. -/
theorem deltaMerge_single_placeholder_witness :
    placeholderCount (applyDeltas "s1" [("m1", "Hel", 5), ("m1", "Hello", 6)]
        [typingIndicatorMsg "s1" 2]) = 1
      ∧ streamingCount (applyDeltas "s1" [("m1", "Hel", 5), ("m1", "Hello", 6)]
        [typingIndicatorMsg "s1" 2]) = 1
      ∧ typingCount (applyDeltas "s1" [("m1", "Hel", 5), ("m1", "Hello", 6)]
        [typingIndicatorMsg "s1" 2]) = 0 :=
  deltaMerge_single_placeholder "s1" [("m1", "Hel", 5), ("m1", "Hello", 6)]
    [typingIndicatorMsg "s1" 2] (by decide) (by decide)

/-! ### C1: idempotence of the terminal merge -/

/-- An id is server-assigned in the sense that it does not collide with any of
the placeholder/provisional id namespaces the terminal merge manipulates. -/
def serverId (s : String) : Prop :=
  isStreamingId s = false ∧ isTypingId s = false ∧ isTempUserId s = false

instance (s : String) : Decidable (serverId s) := by
  unfold serverId
  infer_instance

theorem completeRelabel_counts_str {messageId : String} {r2 : List Message}
    (hm : messageId = "" ∨ serverId messageId)
    (h0 : r2.countP (fun m => isStreamingId m.id) = 0) :
    (completeRelabel messageId r2).countP (fun m => isStreamingId m.id) = 0 := by
  cases hmeq : messageId == "" with
  | true => rw [completeRelabel, hmeq]; simp [h0]
  | false =>
      have hmid : serverId messageId := by
        cases hm with
        | inl h => rw [h] at hmeq; simp at hmeq
        | inr h => exact h
      rw [completeRelabel, hmeq]
      simp only [Bool.false_eq_true, if_false]
      exact countP_modifyFirst_zero (fun m => hmid.1) (countP_zero_iff.mp h0)

theorem completeRelabel_counts_typ {messageId : String} {r2 : List Message}
    (hm : messageId = "" ∨ serverId messageId)
    (h0 : r2.countP (fun m => isTypingId m.id) = 0) :
    (completeRelabel messageId r2).countP (fun m => isTypingId m.id) = 0 := by
  cases hmeq : messageId == "" with
  | true => rw [completeRelabel, hmeq]; simp [h0]
  | false =>
      have hmid : serverId messageId := by
        cases hm with
        | inl h => rw [h] at hmeq; simp at hmeq
        | inr h => exact h
      rw [completeRelabel, hmeq]
      simp only [Bool.false_eq_true, if_false]
      exact countP_modifyFirst_zero (fun m => hmid.2.1) (countP_zero_iff.mp h0)

/-- The first terminal merge leaves no streaming entry, no typing indicator,
and (when a server message id was supplied) no provisional user message; and
its result always carries a message whose id is the response id. -/
theorem updateCompleteMessageList_idem (sessionId messageId responseId fc : String)
    (n1 n2 : Nat) (l : List Message)
    (hs : streamingCount l ≤ 1) (ht : typingCount l ≤ 1) (hu : tempUserCount l ≤ 1)
    (hr : serverId responseId)
    (hm : messageId = "" ∨ serverId messageId) :
    updateCompleteMessageList sessionId messageId responseId fc n2
        (updateCompleteMessageList sessionId messageId responseId fc n1 l)
      = updateCompleteMessageList sessionId messageId responseId fc n1 l := by
  simp only [streamingCount, typingCount, tempUserCount] at hs ht hu
  -- stage values of the first application
  set r1 := removeFirst (fun m => isStreamingId m.id) l with hr1def
  set r2 := removeFirst (fun m => isTypingId m.id) r1 with hr2def
  set l3 := completeRelabel messageId r2 with hl3def
  -- streaming and typing entries are gone after the removal stages
  have hstr_r1 : r1.countP (fun m => isStreamingId m.id) = 0 := by
    rw [hr1def, countP_removeFirst_self]
    omega
  have hstr_r2 : r2.countP (fun m => isStreamingId m.id) = 0 := by
    have hle := List.Sublist.countP_le (fun m => isStreamingId m.id)
      (removeFirst_sublist (fun m => isTypingId m.id) r1)
    rw [← hr2def] at hle
    omega
  have htyp_r1 : r1.countP (fun m => isTypingId m.id) ≤ 1 := by
    have hle := List.Sublist.countP_le (fun m => isTypingId m.id)
      (removeFirst_sublist (fun m => isStreamingId m.id) l)
    rw [← hr1def] at hle
    omega
  have htyp_r2 : r2.countP (fun m => isTypingId m.id) = 0 := by
    rw [hr2def, countP_removeFirst_self]
    omega
  have htmp_r2 : r2.countP (fun m => isTempUserId m.id) ≤ 1 := by
    have hle1 := List.Sublist.countP_le (fun m => isTempUserId m.id)
      (removeFirst_sublist (fun m => isStreamingId m.id) l)
    have hle2 := List.Sublist.countP_le (fun m => isTempUserId m.id)
      (removeFirst_sublist (fun m => isTypingId m.id) r1)
    rw [← hr1def] at hle1
    rw [← hr2def] at hle2
    omega
  -- counts after the relabel stage
  have hstr3 : l3.countP (fun m => isStreamingId m.id) = 0 :=
    completeRelabel_counts_str hm hstr_r2
  have htyp3 : l3.countP (fun m => isTypingId m.id) = 0 :=
    completeRelabel_counts_typ hm htyp_r2
  have htmp3 : messageId = "" ∨ l3.countP (fun m => isTempUserId m.id) = 0 := by
    cases hmeq : messageId == "" with
    | true => exact Or.inl (by simpa using hmeq)
    | false =>
        have hmid : serverId messageId := by
          cases hm with
          | inl h => rw [h] at hmeq; simp at hmeq
          | inr h => exact h
        right
        rw [hl3def, completeRelabel, hmeq]
        simp only [Bool.false_eq_true, if_false]
        exact countP_modifyFirst_self_zero (fun m => hmid.2.2) htmp_r2
  -- second-application removal and relabel stages are the identity
  have idem_of_counts : ∀ L1 : List Message,
      L1.countP (fun m => isStreamingId m.id) = 0 →
      L1.countP (fun m => isTypingId m.id) = 0 →
      (messageId = "" ∨ L1.countP (fun m => isTempUserId m.id) = 0) →
      updateCompleteMessageList sessionId messageId responseId fc n2 L1
        = completeDedup sessionId responseId fc n2 L1 := by
    intro L1 h1 h2 h3
    rw [updateCompleteMessageList, removeFirst_eq_self h1, removeFirst_eq_self h2]
    congr 1
    cases h3 with
    | inl h => rw [completeRelabel, h]; simp
    | inr h =>
        rw [completeRelabel]
        cases hmeq : messageId == "" with
        | true => simp
        | false =>
            simp only [Bool.false_eq_true, if_false]
            exact modifyFirst_eq_self h
  -- the dedup stage of the first application
  have hL1eq : updateCompleteMessageList sessionId messageId responseId fc n1 l
      = completeDedup sessionId responseId fc n1 l3 := by
    rw [updateCompleteMessageList, ← hr1def, ← hr2def, ← hl3def]
  rw [hL1eq]
  cases hany : l3.any (fun m => m.id == responseId) with
  | true =>
      have hL1 : completeDedup sessionId responseId fc n1 l3
          = modifyFirst (fun m => m.id == responseId)
              (fun m => { m with content := fc }) l3 := by
        rw [completeDedup, hany]
        simp
      rw [hL1]
      have hstrL1 : (modifyFirst (fun m => m.id == responseId)
          (fun m => { m with content := fc }) l3).countP (fun m => isStreamingId m.id) = 0 := by
        rw [countP_modifyFirst_congr (p := fun m => m.id == responseId)
          (q := fun m => isStreamingId m.id)
          (f := fun m => { m with content := fc }) (fun m => rfl)]
        exact hstr3
      have htypL1 : (modifyFirst (fun m => m.id == responseId)
          (fun m => { m with content := fc }) l3).countP (fun m => isTypingId m.id) = 0 := by
        rw [countP_modifyFirst_congr (p := fun m => m.id == responseId)
          (q := fun m => isTypingId m.id)
          (f := fun m => { m with content := fc }) (fun m => rfl)]
        exact htyp3
      have htmpL1 : messageId = "" ∨ (modifyFirst (fun m => m.id == responseId)
          (fun m => { m with content := fc }) l3).countP (fun m => isTempUserId m.id) = 0 := by
        cases htmp3 with
        | inl h => exact Or.inl h
        | inr h =>
            right
            rw [countP_modifyFirst_congr (p := fun m => m.id == responseId)
              (q := fun m => isTempUserId m.id)
              (f := fun m => { m with content := fc }) (fun m => rfl)]
            exact h
      rw [idem_of_counts _ hstrL1 htypL1 htmpL1]
      have hanyL1 : (modifyFirst (fun m => m.id == responseId)
          (fun m => { m with content := fc }) l3).any (fun m => m.id == responseId) = true := by
        rw [List.any_eq_true]
        have hpos : 0 < l3.countP (fun m => m.id == responseId) := by
          rw [List.countP_pos_iff]
          exact List.any_eq_true.mp hany
        have := countP_modifyFirst_congr
          (p := fun m => m.id == responseId) (q := fun m => m.id == responseId)
          (f := fun m => { m with content := fc }) (fun m => rfl) l3
        rw [← this] at hpos
        rw [List.countP_pos_iff] at hpos
        exact hpos
      rw [completeDedup, hanyL1]
      simp only [if_true]
      exact modifyFirst_modifyFirst (p := fun m => m.id == responseId)
        (f := fun m => { m with content := fc }) (fun m => rfl) (fun m => rfl) l3
  | false =>
      have hcnt0 : l3.countP (fun m => m.id == responseId) = 0 := by
        rw [countP_zero_iff]
        intro m hmem
        have := List.any_eq_false.mp hany m hmem
        simpa using this
      have hL1 : completeDedup sessionId responseId fc n1 l3
          = l3 ++ [completeAssistantMsg sessionId responseId fc n1] := by
        rw [completeDedup, hany]
        simp
      rw [hL1]
      have haid : ((completeAssistantMsg sessionId responseId fc n1).id == responseId) = true := by
        simp [completeAssistantMsg]
      have hastr : isStreamingId (completeAssistantMsg sessionId responseId fc n1).id = false :=
        hr.1
      have hatyp : isTypingId (completeAssistantMsg sessionId responseId fc n1).id = false :=
        hr.2.1
      have hatmp : isTempUserId (completeAssistantMsg sessionId responseId fc n1).id = false :=
        hr.2.2
      have hstrL1 : (l3 ++ [completeAssistantMsg sessionId responseId fc n1]).countP
          (fun m => isStreamingId m.id) = 0 := by
        rw [List.countP_append, hstr3, List.countP_cons, List.countP_nil, hastr]
        simp
      have htypL1 : (l3 ++ [completeAssistantMsg sessionId responseId fc n1]).countP
          (fun m => isTypingId m.id) = 0 := by
        rw [List.countP_append, htyp3, List.countP_cons, List.countP_nil, hatyp]
        simp
      have htmpL1 : messageId = "" ∨ (l3 ++ [completeAssistantMsg sessionId responseId fc n1]).countP
          (fun m => isTempUserId m.id) = 0 := by
        cases htmp3 with
        | inl h => exact Or.inl h
        | inr h =>
            right
            rw [List.countP_append, h, List.countP_cons, List.countP_nil, hatmp]
            simp
      rw [idem_of_counts _ hstrL1 htypL1 htmpL1]
      have hanyL1 : (l3 ++ [completeAssistantMsg sessionId responseId fc n1]).any
          (fun m => m.id == responseId) = true := by
        rw [List.any_append]
        simp [haid]
      rw [completeDedup, hanyL1]
      simp only [if_true]
      rw [modifyFirst_append_left (countP_zero_iff.mp hcnt0)]
      have : modifyFirst (fun m => m.id == responseId) (fun m => { m with content := fc })
          [completeAssistantMsg sessionId responseId fc n1]
          = [completeAssistantMsg sessionId responseId fc n1] := by
        simp [modifyFirst, haid, completeAssistantMsg]
      rw [this]

/-- C1 (amended): the terminal merge is idempotent provided the terminal
frame's content is non-empty, the server-assigned `responseId` (and
`messageId`, when supplied) does not fall in a placeholder/provisional id
namespace, and the cache satisfies the per-conversation invariants of at most
one streaming entry, one typing indicator and one provisional user message:
applying `updateCompleteMessage` twice with the same frame equals applying it
once — the replay finds the message with the response id and updates it in
place instead of appending a duplicate. (The unamended claim fails when the
content field is empty: see `terminalMerge_not_idem_cex`.) -/
theorem terminalMerge_idem (sessionId messageId responseId content : String)
    (n1 n2 : Nat) (d : MessagesData)
    (hc : content ≠ "")
    (hs : streamingCount d.messages ≤ 1) (ht : typingCount d.messages ≤ 1)
    (hu : tempUserCount d.messages ≤ 1)
    (hr : serverId responseId)
    (hm : messageId = "" ∨ serverId messageId) :
    updateCompleteMessageData sessionId messageId responseId content n2
        (updateCompleteMessageData sessionId messageId responseId content n1 (some d))
      = updateCompleteMessageData sessionId messageId responseId content n1 (some d) := by
  have hbeq : (content == "") = false := by
    rw [beq_eq_false_iff_ne]
    exact hc
  have hfc : ∀ o : Option MessagesData, completeFinalContent content o = content := by
    intro o
    unfold completeFinalContent
    rw [hbeq]
    simp
  have hidem := updateCompleteMessageList_idem sessionId messageId responseId content n1 n2
    d.messages hs ht hu hr hm
  have h1 : updateCompleteMessageData sessionId messageId responseId content n1 (some d)
      = some { messages :=
                 updateCompleteMessageList sessionId messageId responseId content n1 d.messages
               hasMore := d.hasMore
               total :=
                 (updateCompleteMessageList sessionId messageId responseId content n1
                   d.messages).length } := by
    simp [updateCompleteMessageData, hfc]
  rw [h1]
  simp only [updateCompleteMessageData, hfc]
  rw [hidem]

/-- Witness for C1 at a concrete input: a cache holding a provisional user
message and a streaming placeholder, merged twice with the same non-empty
terminal frame. -/
theorem terminalMerge_idem_witness :
    updateCompleteMessageData "s1" "m1" "r1" "Hello there" 20
        (updateCompleteMessageData "s1" "m1" "r1" "Hello there" 10
          (some { messages :=
                    [{ id := "temp_user_3", chatId := "s1", content := "Hi", role := "user",
                       timestamp := 3, isRead := true, metadataType := none },
                     { id := "streaming", chatId := "s1", content := "Hello th", role := "assistant",
                       timestamp := 5, isRead := false, metadataType := none }]
                  hasMore := false
                  total := 2 }))
      = updateCompleteMessageData "s1" "m1" "r1" "Hello there" 10
          (some { messages :=
                    [{ id := "temp_user_3", chatId := "s1", content := "Hi", role := "user",
                       timestamp := 3, isRead := true, metadataType := none },
                     { id := "streaming", chatId := "s1", content := "Hello th", role := "assistant",
                       timestamp := 5, isRead := false, metadataType := none }]
                  hasMore := false
                  total := 2 }) :=
  terminalMerge_idem "s1" "m1" "r1" "Hello there" 10 20 _ (by decide) (by decide) (by decide)
    (by decide) (by decide) (Or.inr (by decide))

/-- C1 counterexample: the claim as stated (idempotence for every cache state
and every terminal frame) fails when the frame's content field is empty — as
happens on a genuine retransmission, the accumulator having been reset by the
first terminal frame. The first merge sources the content from the streaming
placeholder; the replay finds no placeholder and overwrites the merged message
with the empty content, so applying the merge twice differs from applying it
once. -/
theorem terminalMerge_not_idem_cex :
    updateCompleteMessageData "s1" "m1" "r1" "" 20
        (updateCompleteMessageData "s1" "m1" "r1" "" 11
          (some { messages :=
                    [{ id := "streaming", chatId := "s1", content := "partial answer",
                       role := "assistant", timestamp := 10, isRead := false,
                       metadataType := none }]
                  hasMore := false
                  total := 1 }))
      ≠ updateCompleteMessageData "s1" "m1" "r1" "" 11
          (some { messages :=
                    [{ id := "streaming", chatId := "s1", content := "partial answer",
                       role := "assistant", timestamp := 10, isRead := false,
                       metadataType := none }]
                  hasMore := false
                  total := 1 }) := by decide

/-! ### C3: ordering by timestamp -/

/-- The message list is non-decreasing in timestamp. -/
def tsSorted (l : List Message) : Prop :=
  List.Pairwise (· ≤ ·) (l.map Message.timestamp)

instance (l : List Message) : Decidable (tsSorted l) := by
  unfold tsSorted
  infer_instance

/-- The history query's sort step produces a list that is non-decreasing in
timestamp. -/
theorem historyQueryMessages_sorted (sessionId : String) (api : List ApiMessage) :
    tsSorted (historyQueryMessages sessionId api) := by
  have hsorted : List.Sorted tsLe
      ((api.map (convertApiMessage sessionId)).insertionSort tsLe) :=
    List.sorted_insertionSort tsLe _
  unfold tsSorted historyQueryMessages
  rw [List.pairwise_map]
  exact hsorted

theorem tsSorted_removeFirst (p : Message → Bool) {l : List Message} (h : tsSorted l) :
    tsSorted (removeFirst p l) :=
  List.Pairwise.sublist (List.Sublist.map _ (removeFirst_sublist p l)) h

theorem tsBound_removeFirst (p : Message → Bool) {l : List Message} {now : Nat}
    (h : ∀ t ∈ l.map Message.timestamp, t ≤ now) :
    ∀ t ∈ (removeFirst p l).map Message.timestamp, t ≤ now :=
  fun t ht => h t (List.Sublist.subset (List.Sublist.map _ (removeFirst_sublist p l)) ht)

theorem tsSorted_completeRelabel (messageId : String) {l : List Message} (h : tsSorted l) :
    tsSorted (completeRelabel messageId l) := by
  unfold completeRelabel
  cases hmeq : messageId == "" with
  | true => simpa using h
  | false =>
      simp only [Bool.false_eq_true, if_false]
      unfold tsSorted
      rw [modifyFirst_map_eq (p := fun m => isTempUserId m.id)
        (f := fun m => { m with id := messageId }) (g := Message.timestamp) (fun m => rfl)]
      exact h

theorem tsBound_completeRelabel (messageId : String) {l : List Message} {now : Nat}
    (h : ∀ t ∈ l.map Message.timestamp, t ≤ now) :
    ∀ t ∈ (completeRelabel messageId l).map Message.timestamp, t ≤ now := by
  unfold completeRelabel
  cases hmeq : messageId == "" with
  | true => simpa using h
  | false =>
      simp only [Bool.false_eq_true, if_false]
      rw [modifyFirst_map_eq (p := fun m => isTempUserId m.id)
        (f := fun m => { m with id := messageId }) (g := Message.timestamp) (fun m => rfl)]
      exact h

/-- C3 (amended): only the history fetch sorts by timestamp (a stable sort);
the live cache updaters never sort — the terminal merge modifies entries in
place or appends a now-stamped message at the end, so its result is
non-decreasing in timestamp exactly when the input was sorted and the merge
time is at least every cached timestamp. (The unamended claim — every merge
sorts as its final step, so merged lists are always non-decreasing — fails:
see `mergeOrdering_cex`.) -/
theorem mergeOrdering_amended (sessionId : String) (api : List ApiMessage)
    (messageId responseId fc : String) (now : Nat) (l : List Message)
    (h : tsSorted l) (hb : ∀ t ∈ l.map Message.timestamp, t ≤ now) :
    tsSorted (historyQueryMessages sessionId api)
      ∧ tsSorted (updateCompleteMessageList sessionId messageId responseId fc now l) := by
  refine ⟨historyQueryMessages_sorted sessionId api, ?_⟩
  unfold updateCompleteMessageList
  have h3 : tsSorted (completeRelabel messageId
      (removeFirst (fun m => isTypingId m.id)
        (removeFirst (fun m => isStreamingId m.id) l))) :=
    tsSorted_completeRelabel _ (tsSorted_removeFirst _ (tsSorted_removeFirst _ h))
  have hb3 : ∀ t ∈ (completeRelabel messageId
      (removeFirst (fun m => isTypingId m.id)
        (removeFirst (fun m => isStreamingId m.id) l))).map Message.timestamp, t ≤ now :=
    tsBound_completeRelabel _ (tsBound_removeFirst _ (tsBound_removeFirst _ hb))
  unfold completeDedup
  cases hany : (completeRelabel messageId
      (removeFirst (fun m => isTypingId m.id)
        (removeFirst (fun m => isStreamingId m.id) l))).any (fun m => m.id == responseId) with
  | true =>
      simp only [if_true]
      unfold tsSorted
      rw [modifyFirst_map_eq (p := fun m => m.id == responseId)
        (f := fun m => { m with content := fc }) (g := Message.timestamp) (fun m => rfl)]
      exact h3
  | false =>
      simp only [Bool.false_eq_true, if_false]
      unfold tsSorted
      rw [List.map_append]
      rw [List.pairwise_append]
      refine ⟨h3, by simp, ?_⟩
      intro x hx y hy
      simp only [List.map_cons, List.map_nil, List.mem_singleton] at hy
      have : y = now := hy
      rw [this]
      exact hb3 x hx

/-- Witness for C3 at a concrete input: a two-message history page gets
sorted, and a terminal merge at a later time keeps a sorted cache sorted. -/
theorem mergeOrdering_amended_witness :
    tsSorted (historyQueryMessages "s1"
        [{ id := "b", message := "second", role := "assistant", timestamp := 9,
           metadataType := none },
         { id := "a", message := "first", role := "user", timestamp := 4,
           metadataType := none }])
      ∧ tsSorted (updateCompleteMessageList "s1" "m1" "r1" "Hello" 30
          [{ id := "a", chatId := "s1", content := "first", role := "user",
             timestamp := 4, isRead := true, metadataType := none }]) :=
  mergeOrdering_amended "s1"
    [{ id := "b", message := "second", role := "assistant", timestamp := 9,
       metadataType := none },
     { id := "a", message := "first", role := "user", timestamp := 4,
       metadataType := none }]
    "m1" "r1" "Hello" 30
    [{ id := "a", chatId := "s1", content := "first", role := "user",
       timestamp := 4, isRead := true, metadataType := none }]
    (by decide) (by decide)

/-- C3 counterexample: the live terminal merge does not sort as a final step —
merging at time 50 into a cache whose message carries timestamp 100 appends
the assistant message out of order, so the merged list is not non-decreasing
in timestamp. -/
theorem mergeOrdering_cex :
    ¬ tsSorted (updateCompleteMessageList "s1" "m1" "r1" "late reply" 50
        [{ id := "h1", chatId := "s1", content := "from history", role := "user",
           timestamp := 100, isRead := true, metadataType := none }]) := by decide

/-! ### C4: rollback of the optimistic insert -/

/-- C4 (amended): when the pre-send message list holds no placeholder entry
(no typing indicator, no streaming entry) and no message with the fresh
optimistic id, the rollback performed after a failed WebSocket send removes
exactly the two messages the optimistic insert added, and the resulting
message list equals the pre-send list. (Without the no-placeholder hypothesis
the claim fails: the insert itself deletes any stale placeholder, and the
rollback cannot restore it — see `sendRollback_cex`.) -/
theorem sendRollback_restores (sessionId content optimisticId : String) (now : Nat)
    (d : MessagesData)
    (hph : ∀ m ∈ d.messages, (m.id == "typing-indicator") = false
      ∧ (m.id == "streaming") = false ∧ strStarts m.id "streaming_" = false)
    (hopt : ∀ m ∈ d.messages, (m.id == optimisticId) = false) :
    (sendRollback optimisticId
        (some (optimisticInsert sessionId content optimisticId now (some d)))).map
        MessagesData.messages
      = some d.messages := by
  have hfilter : (d.messages.filter fun m =>
      !(m.id == "typing-indicator") && !(m.id == "streaming")
        && !(strStarts m.id "streaming_")) = d.messages := by
    rw [List.filter_eq_self]
    intro m hm
    have h := hph m hm
    rw [h.1, h.2.1, h.2.2]
    rfl
  have hfilter2 : (d.messages.filter fun m =>
      !(m.id == optimisticId) && !(m.id == "streaming")
        && !(m.id == "typing-indicator") && !(strStarts m.id "streaming_")) = d.messages := by
    rw [List.filter_eq_self]
    intro m hm
    have h := hph m hm
    rw [h.1, h.2.1, h.2.2, hopt m hm]
    rfl
  simp only [optimisticInsert, sendRollback, hfilter, Option.map_some]
  rw [List.filter_append, hfilter2]
  simp [optimisticUserMsg, typingIndicatorMsg, List.filter]

/-- Witness for C4 at a concrete input: a settled two-message transcript is
restored exactly after a failed send. -/
theorem sendRollback_restores_witness :
    (sendRollback "temp_user_77"
        (some (optimisticInsert "s1" "hi" "temp_user_77" 50
          (some { messages :=
                    [{ id := "u1", chatId := "s1", content := "hello", role := "user",
                       timestamp := 1, isRead := true, metadataType := none },
                     { id := "r1", chatId := "s1", content := "welcome", role := "assistant",
                       timestamp := 2, isRead := false, metadataType := none }]
                  hasMore := false
                  total := 2 })))).map MessagesData.messages
      = some
          [{ id := "u1", chatId := "s1", content := "hello", role := "user",
             timestamp := 1, isRead := true, metadataType := none },
           { id := "r1", chatId := "s1", content := "welcome", role := "assistant",
             timestamp := 2, isRead := false, metadataType := none }] :=
  sendRollback_restores "s1" "hi" "temp_user_77" 50 _ (by decide) (by decide)

/-- C4 counterexample: for a pre-send cache state holding a stale streaming
placeholder (spec scenario B keeps such an entry alive across a reconnect),
insert-then-rollback does not restore the pre-send list — the stale partial
content is lost, so the resulting list differs from the list before `send`. -/
theorem sendRollback_cex :
    (sendRollback "temp_user_99"
        (some (optimisticInsert "s1" "hi" "temp_user_99" 50
          (some { messages :=
                    [{ id := "streaming", chatId := "s1", content := "partial", role := "assistant",
                       timestamp := 10, isRead := false, metadataType := none }]
                  hasMore := false
                  total := 1 })))).map MessagesData.messages
      ≠ some
          [{ id := "streaming", chatId := "s1", content := "partial", role := "assistant",
             timestamp := 10, isRead := false, metadataType := none }] := by decide

/-! ### C5: the history refetch replaces the cache -/

/-- C5 (amended): the query function of `useMessagesQuery` computes the new
cache value from the fetched page alone — its message list is a permutation
(the stable timestamp sort) of the converted fetched page, whatever the
previous cache held, so in-memory provisional/streaming/placeholder entries
are not merged into it; an unacknowledged optimistic message is dropped by a
refetch (see `historyMerge_drops_optimistic_cex`). -/
theorem historyRefetch_replaces (sessionId : String) (api : List ApiMessage)
    (hasMore : Bool) (total : Nat) (old : Option MessagesData) :
    (historyRefetch sessionId api hasMore total old).messages.Perm
        (api.map (convertApiMessage sessionId))
      ∧ tsSorted (historyRefetch sessionId api hasMore total old).messages :=
  ⟨List.perm_insertionSort tsLe _, historyQueryMessages_sorted sessionId api⟩

/-- C5 counterexample: a cache holding an in-flight optimistic user message is
refetched (empty persisted page); the optimistic message is no longer in the
resulting message list, refuting "the history merge never drops an in-flight
optimistic message". -/
theorem historyMerge_drops_optimistic_cex :
    optimisticUserMsg "s1" "hi" "temp_user_5" 40 ∉
      (historyRefetch "s1" [] false 0
        (some { messages := [optimisticUserMsg "s1" "hi" "temp_user_5" 40]
                hasMore := false
                total := 1 })).messages := by decide

/-! ### C6: malformed inbound frames -/

/-- C6 (amended): an inbound frame missing a required field invokes no
callback; chunk, idle-warning and session-end frames then leave the
accumulator unchanged, but a complete frame missing `message_id` or
`response_id` still resets the accumulator to empty content and null message
id (the reset sits outside the field guard — see `malformedFrame_cex`). -/
theorem malformedFrame_dropped (data : WSMessage) (st : StreamingState) :
    ((data.type = "chunk" ∧ truthy data.chunk = false) →
      handleWebSocketMessage data st = (st, []))
    ∧ ((data.type = "idle_warning" ∧
        (truthy data.message = false ∨ truthy data.session_id = false
          ∨ truthy data.response_id = false)) →
      handleWebSocketMessage data st = (st, []))
    ∧ ((data.type = "session_end" ∧
        (truthy data.message = false ∨ truthy data.session_id = false
          ∨ truthy data.response_id = false)) →
      handleWebSocketMessage data st = (st, []))
    ∧ ((data.type = "complete" ∧
        (truthy data.message_id = false ∨ truthy data.response_id = false)) →
      handleWebSocketMessage data st = (⟨"", none⟩, [])) := by
  refine ⟨?_, ?_, ?_, ?_⟩
  · rintro ⟨h1, h2⟩
    simp [handleWebSocketMessage, h1, h2]
  · rintro ⟨h1, h2⟩
    rcases h2 with h | h | h <;> simp [handleWebSocketMessage, h1, h]
  · rintro ⟨h1, h2⟩
    rcases h2 with h | h | h <;> simp [handleWebSocketMessage, h1, h]
  · rintro ⟨h1, h2⟩
    rcases h2 with h | h <;> simp [handleWebSocketMessage, h1, h]

/-- Witness for C6 at concrete malformed frames: a chunk frame without a chunk
field is dropped with the accumulator untouched, and a complete frame without
a response id invokes no callback (but resets the accumulator). -/
theorem malformedFrame_dropped_witness :
    handleWebSocketMessage { type := "chunk" } ⟨"abc", none⟩ = (⟨"abc", none⟩, [])
      ∧ handleWebSocketMessage { type := "complete", message_id := some "m1" } ⟨"abc", none⟩
        = (⟨"", none⟩, []) :=
  ⟨(malformedFrame_dropped { type := "chunk" } ⟨"abc", none⟩).1 ⟨rfl, rfl⟩,
   (malformedFrame_dropped { type := "complete", message_id := some "m1" } ⟨"abc", none⟩).2.2.2
     ⟨rfl, Or.inr rfl⟩⟩

/-- C6 counterexample: a complete frame with both identifiers missing invokes
no callback but does NOT leave the accumulator unchanged — it resets it,
refuting "the frame is dropped without mutating the accumulator". -/
theorem malformedFrame_cex :
    (handleWebSocketMessage { type := "complete" } ⟨"partial", some "m0"⟩).1
      ≠ (⟨"partial", some "m0"⟩ : StreamingState) := by decide

/-! ### C7: the server error frame -/

/-- C7 (amended): an inbound `error` frame is terminal for the streaming
attempt in the accumulator sense — the accumulator is reset to empty content
and null message id, and a normalized error (the frame's `error` text, or
"WebSocket error") is surfaced to the error observer — but no cache update is
performed: the message cache, conversation state, session list and connection
flag are all left unchanged, so a streaming/typing placeholder present in the
message list stays there (see `errorFrame_keeps_placeholder_cex`). -/
theorem errorFrame_behavior (hookId : String) (now : Nat) (data : WSMessage) (s : ChatState)
    (h : data.type = "error") :
    processFrame hookId now data s
      = ({ s with streaming := ⟨"", none⟩ },
         [if truthy data.error then data.error.getD "" else "WebSocket error"]) := by
  simp [processFrame, handleWebSocketMessage, h, applyEvent]

/-- Witness for C7 at a concrete input: an error frame with text "boom". -/
theorem errorFrame_behavior_witness :
    processFrame "s1" 5 { type := "error", error := some "boom" }
        { cache := some { messages := [], hasMore := false, total := 0 }
          convState := none
          sessions := []
          connected := true
          streaming := { content := "part", messageId := none } }
      = ({ cache := some { messages := [], hasMore := false, total := 0 }
           convState := none
           sessions := []
           connected := true
           streaming := { content := "", messageId := none } }, ["boom"]) := by
  rw [errorFrame_behavior "s1" 5 { type := "error", error := some "boom" }
    { cache := some { messages := [], hasMore := false, total := 0 }
      convState := none
      sessions := []
      connected := true
      streaming := { content := "part", messageId := none } } rfl]
  decide

/-- C7 counterexample: handling an error frame leaves the message cache — and
with it the streaming placeholder — untouched, refuting "the placeholder is
removed from the conversation's message list". -/
theorem errorFrame_keeps_placeholder_cex :
    (processFrame "s1" 30 { type := "error" }
        { cache := some { messages :=
                            [{ id := "streaming", chatId := "s1", content := "part",
                               role := "assistant", timestamp := 9, isRead := false,
                               metadataType := none }]
                          hasMore := false
                          total := 1 }
          convState := none
          sessions := []
          connected := true
          streaming := { content := "part", messageId := none } }).1.cache
      = some { messages :=
                 [{ id := "streaming", chatId := "s1", content := "part",
                    role := "assistant", timestamp := 9, isRead := false,
                    metadataType := none }]
               hasMore := false
               total := 1 } := by decide

/-! ### C8: the reconnection bound -/

/-- C8: with the default configuration (5 attempts maximum, as passed by
`useWebSocketChat`), a connection that always fails with an abnormal close
schedules exactly five reconnects — the attempt counter incremented before
computing the linearly increasing delay `reconnectDelay * attemptNumber` — and
then surfaces the terminal connectivity error exactly once; no further
attempt is scheduled no matter how much longer the run is observed
(the trace is independent of the extra fuel). -/
theorem reconnectionBound (b extra : Nat) :
    failingRun ⟨5, b⟩ (extra + 6) ⟨0, false⟩
      = [ConnAction.scheduleReconnect (b * 1), ConnAction.scheduleReconnect (b * 2),
         ConnAction.scheduleReconnect (b * 3), ConnAction.scheduleReconnect (b * 4),
         ConnAction.scheduleReconnect (b * 5), ConnAction.terminalError]
      ∧ (failingRun ⟨5, b⟩ (extra + 6) ⟨0, false⟩).countP isReconnectAction = 5
      ∧ (failingRun ⟨5, b⟩ (extra + 6) ⟨0, false⟩).count ConnAction.terminalError = 1 := by
  have h : failingRun ⟨5, b⟩ (extra + 6) ⟨0, false⟩
      = [ConnAction.scheduleReconnect (b * 1), ConnAction.scheduleReconnect (b * 2),
         ConnAction.scheduleReconnect (b * 3), ConnAction.scheduleReconnect (b * 4),
         ConnAction.scheduleReconnect (b * 5), ConnAction.terminalError] := by
    show failingRun ⟨5, b⟩ ((extra + 5) + 1) ⟨0, false⟩ = _
    simp [failingRun, onCloseEvent, isReconnectAction]
  refine ⟨h, ?_, ?_⟩
  · rw [h]
    simp [isReconnectAction]
  · rw [h]
    simp [List.count_cons]

/-! ### C9: the session_end frame -/

theorem sessionEndMsg_id {sessionId msg rid : String} {now : Nat} (h : (rid == "") = false) :
    (sessionEndMsg sessionId msg rid now).id = rid := by
  simp [sessionEndMsg, h]

theorem sessionEndMsg_matches {sessionId msg rid : String} {now : Nat}
    (h : (rid == "") = false) :
    sessionEndMatches rid msg (sessionEndMsg sessionId msg rid now) = true := by
  simp [sessionEndMatches, sessionEndMsg_id h]

/-- A first delivery (no earlier copy in the cache) appends the tagged
session-end message. -/
theorem addSessionEndList_append {sessionId msg rid : String} {now : Nat} {l : List Message}
    (h0 : l.countP (sessionEndMatches rid msg) = 0) :
    addSessionEndList sessionId msg rid now l = l ++ [sessionEndMsg sessionId msg rid now] := by
  rw [addSessionEndList]
  have hany : l.any (sessionEndMatches rid msg) = false := by
    rw [List.any_eq_false]
    intro m hm
    have := countP_zero_iff.mp h0 m hm
    simp [this]
  rw [hany]
  simp

/-- A redelivery finds the previously appended copy and updates it in place:
no duplicate is added. -/
theorem addSessionEndList_replay {sessionId msg rid : String} {n1 n2 : Nat} {l : List Message}
    (hr : (rid == "") = false)
    (h0 : l.countP (sessionEndMatches rid msg) = 0) :
    addSessionEndList sessionId msg rid n2 (l ++ [sessionEndMsg sessionId msg rid n1])
      = l ++ [sessionEndMsg sessionId msg rid n2] := by
  rw [addSessionEndList]
  have hany : (l ++ [sessionEndMsg sessionId msg rid n1]).any (sessionEndMatches rid msg)
      = true := by
    rw [List.any_append]
    simp [sessionEndMsg_matches hr]
  rw [hany]
  simp only [if_true]
  rw [replaceFirst_append_left (countP_zero_iff.mp h0)]
  simp [replaceFirst, sessionEndMsg_matches hr]

/-- The session_end frame with text `msg`, session `sid` and response id
`rid` (all other fields absent). -/
def sessionEndFrame (msg sid rid : String) : WSMessage :=
  { type := "session_end", message := some msg, session_id := some sid,
    response_id := some rid }

theorem addSessionEndData_some (sessionId message responseId : String) (now : Nat)
    (D : MessagesData) :
    addSessionEndData sessionId message responseId now (some D)
      = { messages := addSessionEndList sessionId message responseId now D.messages
          hasMore := D.hasMore
          total := (addSessionEndList sessionId message responseId now D.messages).length } := rfl

/-- The dispatch of a well-formed session_end frame for the connected
conversation: the cache gets the session-end merge, the derived state becomes
complete, the conversation-list rows for this session become inactive, and the
connection is disconnected; no error is surfaced. -/
theorem processFrame_sessionEnd (hookId msg rid : String) (now : Nat) (s : ChatState)
    (hmsg : msg ≠ "") (hsid : hookId ≠ "") (hrid : rid ≠ "") :
    processFrame hookId now (sessionEndFrame msg hookId rid) s
      = ({ s with
            cache := some (addSessionEndData hookId msg rid now s.cache)
            convState := some { needsInfo := none, isComplete := true, suggestions := [] }
            sessions := sessionEndSessionList hookId msg now s.sessions
            connected := false }, []) := by
  have hbm : (msg == "") = false := beq_eq_false_iff_ne.mpr hmsg
  have hbs : (hookId == "") = false := beq_eq_false_iff_ne.mpr hsid
  have hbr : (rid == "") = false := beq_eq_false_iff_ne.mpr hrid
  simp [sessionEndFrame, processFrame, handleWebSocketMessage, truthy, hbm, hbs, hbr,
    applyEvent]

/-- C9: a `session_end` frame with a response id, arriving for the connected
conversation (its `session_id` equals the hook's session id), appends a
message carrying that response id and tagged session-end to the message list
(exactly one such entry, and redelivery of the same frame keeps it single),
sets the derived conversation state to `isComplete = true`, marks the
conversation inactive in the conversation-list cache, disconnects the
connection, and makes every subsequent `send()` on the conversation return
`false`. -/
theorem sessionEnd_effects (hookId msg rid v : String) (now n2 : Nat) (s : ChatState)
    (d : MessagesData) (transportOk : Bool)
    (hmsg : msg ≠ "") (hsid : hookId ≠ "") (hrid : rid ≠ "")
    (hcache : s.cache = some d)
    (hno : d.messages.countP (sessionEndMatches rid msg) = 0) :
    ((processFrame hookId now (sessionEndFrame msg hookId rid) s).1.cache).map
        MessagesData.messages
      = some (d.messages ++ [sessionEndMsg hookId msg rid now])
    ∧ (sessionEndMsg hookId msg rid now).id = rid
    ∧ (sessionEndMsg hookId msg rid now).metadataType = some "session_end"
    ∧ (d.messages ++ [sessionEndMsg hookId msg rid now]).countP
        (sessionEndMatches rid msg) = 1
    ∧ (processFrame hookId now (sessionEndFrame msg hookId rid) s).1.convState
      = some { needsInfo := none, isComplete := true, suggestions := [] }
    ∧ (∀ se ∈ (processFrame hookId now (sessionEndFrame msg hookId rid) s).1.sessions,
        (se.id == hookId) = true → se.is_active = false)
    ∧ (processFrame hookId now (sessionEndFrame msg hookId rid) s).1.connected = false
    ∧ sendMessageWS v (processFrame hookId now (sessionEndFrame msg hookId rid) s).1 transportOk = false
    ∧ ((processFrame hookId n2 (sessionEndFrame msg hookId rid)
        (processFrame hookId now (sessionEndFrame msg hookId rid) s).1).1.cache).map
        MessagesData.messages
      = some (d.messages ++ [sessionEndMsg hookId msg rid n2]) := by
  have hbr : (rid == "") = false := beq_eq_false_iff_ne.mpr hrid
  have hpf := processFrame_sessionEnd hookId msg rid now s hmsg hsid hrid
  have hdata : addSessionEndData hookId msg rid now s.cache
      = { messages := d.messages ++ [sessionEndMsg hookId msg rid now]
          hasMore := d.hasMore
          total := (d.messages ++ [sessionEndMsg hookId msg rid now]).length } := by
    rw [hcache]
    simp [addSessionEndData, addSessionEndList_append hno]
  have hcnt : (d.messages ++ [sessionEndMsg hookId msg rid now]).countP
      (sessionEndMatches rid msg) = 1 := by
    rw [List.countP_append, hno, List.countP_cons, List.countP_nil,
      sessionEndMsg_matches hbr]
    simp
  refine ⟨?_, sessionEndMsg_id hbr, rfl, hcnt, ?_, ?_, ?_, ?_, ?_⟩
  · rw [hpf]
    simp [hdata]
  · rw [hpf]
  · rw [hpf]
    intro se hse
    simp only [sessionEndSessionList] at hse
    obtain ⟨se0, hse0, heq⟩ := List.mem_map.mp hse
    cases hb : se0.id == hookId with
    | true =>
        rw [hb] at heq
        simp only [if_true] at heq
        intro _
        rw [← heq]
    | false =>
        rw [hb] at heq
        simp only [Bool.false_eq_true, if_false] at heq
        intro hcontra
        rw [← heq] at hcontra
        rw [hb] at hcontra
        exact absurd hcontra Bool.false_ne_true
  · rw [hpf]
  · rw [hpf]
    simp [sendMessageWS]
  · have hpf2 := processFrame_sessionEnd hookId msg rid n2
      (processFrame hookId now (sessionEndFrame msg hookId rid) s).1 hmsg hsid hrid
    rw [hpf2, hpf]
    simp [hdata, addSessionEndData_some, addSessionEndList_replay hbr hno]

/-- Witness for C9 at a concrete input: a one-message transcript receives a
session_end frame for its own session id; its cache gains exactly the tagged
session-end message. -/
theorem sessionEnd_effects_witness :
    ((processFrame "s1" 50 (sessionEndFrame "Chat ended" "s1" "r2")
        { cache := some { messages :=
                            [{ id := "u1", chatId := "s1", content := "hi", role := "user",
                               timestamp := 1, isRead := true, metadataType := none }]
                          hasMore := false
                          total := 1 }
          convState := none
          sessions := [{ id := "s1", is_active := true, last_message := "hi",
                         last_message_at := 1 }]
          connected := true
          streaming := { content := "", messageId := none } }).1.cache).map
        MessagesData.messages
      = some ([{ id := "u1", chatId := "s1", content := "hi", role := "user",
                 timestamp := 1, isRead := true, metadataType := none }]
              ++ [sessionEndMsg "s1" "Chat ended" "r2" 50]) :=
  (sessionEnd_effects "s1" "Chat ended" "r2" "v1" 50 60 _ _ true (by decide) (by decide)
    (by decide) rfl (by decide)).1

/-! ### C10: cross-conversation isolation of out-of-band frames -/

/-- C10: an `idle_warning` or `session_end` frame whose session id differs
from the conversation id the hook is connected to performs no merge at all:
the per-conversation state — message cache, derived conversation state,
conversation-list rows, connection flag and streaming accumulator — is
returned unchanged, and no error is surfaced. (The cache updaters are keyed by
the hook's session id, so no other conversation's cache entry is touched
either.) -/
theorem outOfBand_isolation (hookId : String) (now : Nat) (data : WSMessage) (s : ChatState)
    (htype : data.type = "idle_warning" ∨ data.type = "session_end")
    (hsid : data.session_id.getD "" ≠ hookId) :
    processFrame hookId now data s = (s, []) := by
  have hb : (data.session_id.getD "" == hookId) = false := beq_eq_false_iff_ne.mpr hsid
  cases htype with
  | inl h =>
      cases hg : truthy data.message && truthy data.session_id && truthy data.response_id with
      | false => simp [processFrame, handleWebSocketMessage, h, hg, applyEvent]
      | true =>
          simp [processFrame, handleWebSocketMessage, h, hg, applyEvent, hb]
          intro hcontra
          exact absurd hcontra hsid
  | inr h =>
      cases hg : truthy data.message && truthy data.session_id && truthy data.response_id with
      | false => simp [processFrame, handleWebSocketMessage, h, hg, applyEvent]
      | true =>
          simp [processFrame, handleWebSocketMessage, h, hg, applyEvent, hb]
          intro hcontra
          exact absurd hcontra hsid

/-- Witness for C10 at a concrete input: an idle warning for session "s9"
arriving on the connection of session "s1" changes nothing. -/
theorem outOfBand_isolation_witness :
    processFrame "s1" 70
        { type := "idle_warning", message := some "Still there?",
          session_id := some "s9", response_id := some "r7" }
        { cache := some { messages := [], hasMore := false, total := 0 }
          convState := none
          sessions := []
          connected := true
          streaming := { content := "buf", messageId := none } }
      = ({ cache := some { messages := [], hasMore := false, total := 0 }
           convState := none
           sessions := []
           connected := true
           streaming := { content := "buf", messageId := none } }, []) :=
  outOfBand_isolation "s1" 70
    { type := "idle_warning", message := some "Still there?",
      session_id := some "s9", response_id := some "r7" }
    { cache := some { messages := [], hasMore := false, total := 0 }
      convState := none
      sessions := []
      connected := true
      streaming := { content := "buf", messageId := none } }
    (Or.inl rfl) (by decide)

end ChatWidget
